import Mathlib

/-
  Verification of the glif_psc neuron model (AllenInstitute/nest-simulator).

  Shallow embedding of glif_psc.cpp (src/unnamed/part_000) together with the
  set_status pattern of src/models/iaf_psc_alpha_multisynapse.h.  Machine
  doubles are modelled as ℚ; the transcendental std::exp and the
  propagator_31/propagator_32 helpers (from libnestutil, not part of this
  repository snapshot) are passed in as abstract function parameters, so every
  definition stays executable and the algebraic structure of the code is kept
  exactly.
-/

namespace GlifPsc

/-- Parameters_ of glif_psc (glif_psc.cpp lines 68-89 for the defaults; the
    fields mirror the constructor-initialised members).  `th_inf` and
    `V_reset` are stored relative to `E_L`, as in the source. -/
structure Params where
  E_L : ℚ
  G : ℚ
  th_inf : ℚ
  C_m : ℚ
  t_ref : ℚ
  V_reset : ℚ
  a_spike : ℚ
  b_spike : ℚ
  voltage_reset_a : ℚ
  voltage_reset_b : ℚ
  a_voltage : ℚ
  b_voltage : ℚ
  asc_init : List ℚ
  k : List ℚ
  asc_amps : List ℚ
  r : List ℚ
  tau_syn : List ℚ
  has_connections : Bool
  glif_model : String
  deriving DecidableEq, Repr

/-- Default parameter values (glif_psc.cpp lines 68-89). -/
def defaultParams : Params :=
  { E_L := -78.85
    G := 9.43
    th_inf := 27.17
    C_m := 58.72
    t_ref := 3.75
    V_reset := 0
    a_spike := 0.37
    b_spike := 0.009
    voltage_reset_a := 0.20
    voltage_reset_b := 18.51
    a_voltage := 0.005
    b_voltage := 0.09
    asc_init := [0, 0]
    k := [0.003, 0.1]
    asc_amps := [-9.18, -198.94]
    r := [1, 1]
    tau_syn := [2]
    has_connections := false
    glif_model := "lif" }

/-- The update dictionary passed to set(): each recognised key is either
    present (some v) or absent (none), mirroring updateValue on a
    DictionaryDatum.  `V_m` and `ASCurrents` are the State_::set keys. -/
structure Dict where
  E_L : Option ℚ := none
  V_reset : Option ℚ := none
  V_th : Option ℚ := none
  g : Option ℚ := none
  C_m : Option ℚ := none
  t_ref : Option ℚ := none
  a_spike : Option ℚ := none
  b_spike : Option ℚ := none
  a_reset : Option ℚ := none
  b_reset : Option ℚ := none
  a_voltage : Option ℚ := none
  b_voltage : Option ℚ := none
  asc_init : Option (List ℚ) := none
  k : Option (List ℚ) := none
  asc_amps : Option (List ℚ) := none
  r : Option (List ℚ) := none
  tau_syn : Option (List ℚ) := none
  glif_model : Option String := none
  V_m : Option ℚ := none
  ASCurrents : Option (List ℚ) := none
  deriving DecidableEq, Repr

/-- The dictionary with no keys: a null update. -/
def emptyDict : Dict := {}

/-- The dictionary produced by Parameters_::get (glif_psc.cpp lines 109-135):
    every parameter key with its exported value; V_th and V_reset are
    converted back to absolute potentials by adding E_L. -/
structure GetDict where
  V_th : ℚ
  g : ℚ
  E_L : ℚ
  C_m : ℚ
  t_ref : ℚ
  V_reset : ℚ
  a_spike : ℚ
  b_spike : ℚ
  a_reset : ℚ
  b_reset : ℚ
  a_voltage : ℚ
  b_voltage : ℚ
  asc_init : List ℚ
  k : List ℚ
  asc_amps : List ℚ
  r : List ℚ
  tau_syn : List ℚ
  has_connections : Bool
  glif_model : String
  deriving DecidableEq, Repr

attribute [ext] GetDict

/-- Parameters_::get (glif_psc.cpp lines 109-135). -/
def Parameters_get (p : Params) : GetDict :=
  { V_th := p.th_inf + p.E_L
    g := p.G
    E_L := p.E_L
    C_m := p.C_m
    t_ref := p.t_ref
    V_reset := p.V_reset + p.E_L
    a_spike := p.a_spike
    b_spike := p.b_spike
    a_reset := p.voltage_reset_a
    b_reset := p.voltage_reset_b
    a_voltage := p.a_voltage
    b_voltage := p.b_voltage
    asc_init := p.asc_init
    k := p.k
    asc_amps := p.asc_amps
    r := p.r
    tau_syn := p.tau_syn
    has_connections := p.has_connections
    glif_model := p.glif_model }

/-- The mutation phase of Parameters_::set (glif_psc.cpp lines 142-181): every
    updateValue call runs before any validation check, including the tau_syn
    update at line 180.  Returns the updated parameters and delta_EL.  In the
    C++ this mutates the Parameters_ object (the temporary copy held by
    set_status) in place. -/
def applyUpdates (p : Params) (d : Dict) : Params × ℚ :=
  let E_L := d.E_L.getD p.E_L
  let delta_EL := E_L - p.E_L
  let V_reset := match d.V_reset with
    | some v => v - E_L
    | none => p.V_reset - delta_EL
  let th_inf := match d.V_th with
    | some v => v - E_L
    | none => p.th_inf - delta_EL
  ({ E_L := E_L
     G := d.g.getD p.G
     th_inf := th_inf
     C_m := d.C_m.getD p.C_m
     t_ref := d.t_ref.getD p.t_ref
     V_reset := V_reset
     a_spike := d.a_spike.getD p.a_spike
     b_spike := d.b_spike.getD p.b_spike
     voltage_reset_a := d.a_reset.getD p.voltage_reset_a
     voltage_reset_b := d.b_reset.getD p.voltage_reset_b
     a_voltage := d.a_voltage.getD p.a_voltage
     b_voltage := d.b_voltage.getD p.b_voltage
     asc_init := d.asc_init.getD p.asc_init
     k := d.k.getD p.k
     asc_amps := d.asc_amps.getD p.asc_amps
     r := d.r.getD p.r
     tau_syn := d.tau_syn.getD p.tau_syn
     has_connections := p.has_connections
     glif_model := d.glif_model.getD p.glif_model }, delta_EL)

/-- The validation phase of Parameters_::set (glif_psc.cpp lines 183-241),
    run on the already-updated parameters, in source order.  Note that
    old_n_receptors (line 224) is read from the already updated tau_syn
    vector, because tau_syn was updated at line 180; the repeated updateValue
    at line 225 leaves it unchanged, so the length comparison at line 227
    compares the new length with itself.  n_receptors_ is the length of the
    tau_syn vector (spec section 3). -/
def checkParams (d : Dict) (a : Params × ℚ) : Except String (Params × ℚ) :=
  if a.1.th_inf ≤ a.1.V_reset then
    .error "Reset potential must be smaller than threshold."
  else if a.1.C_m ≤ 0 then
    .error "Capacitance must be strictly positive."
  else if a.1.G ≤ 0 then
    .error "Membrane conductance must be strictly positive."
  else if a.1.t_ref ≤ 0 then
    .error "Refractory time constant must be strictly positive."
  else if a.1.b_voltage ≤ 0 then
    .error "Voltage-induced threshold time constant must be strictly positive."
  else if a.1.b_spike ≤ 0 then
    .error "Spike induced threshold time constant must be strictly positive."
  else if a.1.k.any (fun x => x ≤ 0) then
    .error "After-spike current time constant must be strictly positive."
  else if d.tau_syn.isSome then
    -- old_n_receptors (line 224) is a.1.tau_syn.length, already the updated
    -- length, so the guard compares the updated length with itself:
    if a.1.tau_syn.length ≠ a.1.tau_syn.length ∧ a.1.has_connections then
      .error "The neuron has connections, therefore the number of ports cannot be reduced."
    else if a.1.tau_syn.any (fun x => x ≤ 0) then
      .error "All synaptic time constants must be strictly positive."
    else .ok a
  else .ok a

/-- Parameters_::set (glif_psc.cpp lines 137-243): all updates are applied
    first (lines 142-181, applyUpdates), then the checks run (lines 183-241,
    checkParams); on success the pair (updated parameters, delta_EL) is
    returned. -/
def Parameters_set (p : Params) (d : Dict) : Except String (Params × ℚ) :=
  checkParams d (applyUpdates p d)

/-- Validity of a parameter set: exactly the conjunction of the checks of
    Parameters_::set (used only to state that a null update is accepted). -/
def validParams (p : Params) : Prop :=
  p.V_reset < p.th_inf ∧ 0 < p.C_m ∧ 0 < p.G ∧ 0 < p.t_ref ∧
    0 < p.b_voltage ∧ 0 < p.b_spike ∧ ∀ x ∈ p.k, 0 < x

instance (p : Params) : Decidable (validParams p) := by
  unfold validParams; infer_instance

/-- State_ of glif_psc, merged with the fields of Variables_ that update()
    mutates (t_ref_remaining_, last_spike_, last_voltage_). -/
structure State where
  U : ℚ
  ASCurrents : List ℚ
  ASCurrents_sum : ℚ
  threshold : ℚ
  I : ℚ
  I_syn : ℚ
  y1 : List ℚ
  y2 : List ℚ
  t_ref_remaining : ℚ
  last_spike : ℚ
  last_voltage : ℚ
  deriving DecidableEq, Repr

/-- State_::State_(const Parameters_&) (glif_psc.cpp lines 91-103):
    U = 0, threshold = -51.68 - E_L, ASCurrents = asc_init, y1 = y2 = [];
    the Variables_ fields are zeroed by calibrate (lines 325-328). -/
def initState (p : Params) : State :=
  { U := 0
    ASCurrents := p.asc_init
    ASCurrents_sum := 0
    threshold := -51.68 - p.E_L
    I := 0
    I_syn := 0
    y1 := []
    y2 := []
    t_ref_remaining := 0
    last_spike := 0
    last_voltage := 0 }

/-- State_::get (glif_psc.cpp lines 245-250): V_m re-based to absolute. -/
def State_get (s : State) (p : Params) : ℚ × List ℚ :=
  (s.U + p.E_L, s.ASCurrents)

/-- State_::set (glif_psc.cpp lines 252-268). -/
def State_set (s : State) (d : Dict) (p : Params) (delta_EL : ℚ) : State :=
  { s with
    U := match d.V_m with
      | some v => v - p.E_L
      | none => s.U - delta_EL
    ASCurrents := d.ASCurrents.getD s.ASCurrents }

/-- A neuron node: parameters plus dynamic state (P_ and S_ of the node). -/
structure Node where
  P : Params
  S : State
  deriving DecidableEq, Repr

/-- Modelled from the spec: the node-level set_status of glif_psc lives in
    glif_psc.h, which is not part of this source snapshot.  Spec section 4.1
    requires validation failures to fail atomically, and the in-src
    iaf_psc_alpha_multisynapse::set_status (iaf_psc_alpha_multisynapse.h lines
    290-307) shows the exact pattern: Parameters_::set runs on a temporary
    copy ptmp, State_::set on a temporary copy stmp, and (P_, S_) are
    assigned only if no exception was thrown; on a throw the node is left
    untouched.  The thrown message is returned alongside the (unchanged)
    node. -/
def set_status (nd : Node) (d : Dict) : Node × Option String :=
  match Parameters_set nd.P d with
  | .error e => (nd, some e)
  | .ok (ptmp, delta_EL) => ({ P := ptmp, S := State_set nd.S d ptmp delta_EL }, none)

/-- The propagator table and read-only internals computed by calibrate
    (Variables_ minus its mutable fields). -/
structure PropTable where
  t_ref_total : ℚ
  P33 : ℚ
  P30 : ℚ
  P11 : List ℚ
  P21 : List ℚ
  P22 : List ℚ
  P31 : List ℚ
  P32 : List ℚ
  PSCInitialValues : List ℚ
  deriving DecidableEq, Repr

/-- calibrate (glif_psc.cpp lines 320-364).  `exp` stands for std::exp;
    `prop31`/`prop32` stand for propagator_31/propagator_32 from
    libnestutil's propagator_stability (not in this snapshot), taking
    (tau_syn, Tau, C_m, h).  numerics::e is Euler's constant, i.e. exp 1.
    Tau_ = C_m / G (line 345); P33 = exp(-h/Tau) (line 346);
    P30 = 1/C_m * (1 - P33) * Tau (line 347); per receptor i:
    P11 = P22 = exp(-h/tau_syn[i]), P21 = h * P11,
    PSCInitialValues = e / tau_syn[i] (lines 352-361). -/
def calibrate (exp : ℚ → ℚ) (prop31 prop32 : ℚ → ℚ → ℚ → ℚ → ℚ)
    (P : Params) (h : ℚ) : PropTable :=
  let Tau := P.C_m / P.G
  { t_ref_total := P.t_ref
    P33 := exp (-h / Tau)
    P30 := 1 / P.C_m * (1 - exp (-h / Tau)) * Tau
    P11 := P.tau_syn.map (fun t => exp (-h / t))
    P21 := P.tau_syn.map (fun t => h * exp (-h / t))
    P22 := P.tau_syn.map (fun t => exp (-h / t))
    P31 := P.tau_syn.map (fun t => prop31 t Tau P.C_m h)
    P32 := P.tau_syn.map (fun t => prop32 t Tau P.C_m h)
    PSCInitialValues := P.tau_syn.map (fun t => exp 1 / t) }

/-- Modelled from the spec: the model_type_lu table lives in glif_psc.h,
    which is not part of this source snapshot.  Reconstructed from the spec's
    variant tags and the source comments (glif1..glif5; models 2/4/5 carry
    "R", 3/4/5 carry "ASC", 5 carries "A"; the default tag is "lif"). -/
def model_type_lu (s : String) : Option ℕ :=
  if s = "lif" then some 1
  else if s = "lif_r" then some 2
  else if s = "lif_asc" then some 3
  else if s = "lif_r_asc" then some 4
  else if s = "lif_r_asc_a" then some 5
  else none

/-- Errors that abort update(): the BadProperty throw for an unknown model
    type string (lines 380-384) and the fatal voltage-reset-above-threshold
    assertion (lines 444-454, printf followed by assert). -/
inductive UpdateErr where
  | badGlifModelType
  | voltageResetAboveThreshold
  deriving DecidableEq, Repr

/-- Exact spike-time interpolation (glif_psc.cpp lines 514-518): the offset
    carried by the emitted SpikeEvent, computed from the pre-step pair
    (v_old, th_old) and the post-step pair (u, th) over a step of length dt. -/
def spike_offset (v_old th_old u th dt : ℚ) : ℚ :=
  (1 - (v_old - th_old) / ((th - th_old) - (u - v_old))) * dt

/-- Spike component decay (lines 399-402): exact solution of the spike
    component of the threshold, applied for glif2/4/5 models with "R";
    otherwise the loop-local spike_component stays 0. -/
def spikeComponent (exp : ℚ → ℚ) (P : Params) (dt : ℚ) (mty : ℕ)
    (lastSpike : ℚ) : ℚ :=
  if mty = 2 ∨ mty = 4 ∨ mty = 5 then lastSpike * exp (-P.b_spike * dt) else 0

/-- After-spike current reset at the end of the refractory period (lines
    416-424), for glif3/4/5 models with "ASC":
    ASCurrents[a] = asc_amps[a] + ASCurrents[a] * r[a] * exp(-k[a] * t_ref_total). -/
def ascReset (exp : ℚ → ℚ) (P : Params) (ttot : ℚ) (mty : ℕ)
    (asc : List ℚ) : List ℚ :=
  if mty = 3 ∨ mty = 4 ∨ mty = 5 then
    List.zipWith (fun amp x => amp + x) P.asc_amps
      (List.zipWith (fun a c => a * c) asc
        (List.zipWith (fun rr kk => rr * exp (-kk * ttot)) P.r P.k))
  else asc

/-- Voltage reset at the end of the refractory period (lines 426-443):
    fixed V_reset for glif1/3, affine a*U + b for glif2/4/5 with "R". -/
def resetU (P : Params) (mty : ℕ) (u : ℚ) : ℚ :=
  if mty = 1 ∨ mty = 3 then P.V_reset else P.voltage_reset_a * u + P.voltage_reset_b

/-- Spike-component update at reset (lines 437-438): bumped by a_spike for
    "R" models, otherwise left at the decayed spike_component. -/
def resetLastSpike (P : Params) (mty : ℕ) (sc : ℚ) : ℚ :=
  if mty = 1 ∨ mty = 3 then sc else sc + P.a_spike

/-- Combined threshold after a reset (lines 440-443): recomputed as
    (spike component + a_spike) + last_voltage + th_inf for "R" models;
    left unchanged for glif1/3. -/
def resetThreshold (P : Params) (mty : ℕ) (sc lastV th : ℚ) : ℚ :=
  if mty = 1 ∨ mty = 3 then th else (sc + P.a_spike) + lastV + P.th_inf

/-- Voltage component of the threshold (lines 489-501), exact update for the
    glif5 model with "A"; 0 for every other model (the loop-local
    voltage_component is only ever assigned in the glif5 branch). -/
def voltageComponent (exp : ℚ → ℚ) (P : Params) (dt : ℚ) (mty : ℕ)
    (lastV vOld Itot : ℚ) : ℚ :=
  if mty = 5 then
    let beta := Itot / P.G
    let phi := P.a_voltage / (P.b_voltage - P.G / P.C_m)
    phi * (vOld - beta) * exp (-P.G * dt / P.C_m)
      + 1 / exp (P.b_voltage * dt)
        * (lastV - phi * (vOld - beta) - P.a_voltage / P.b_voltage * beta)
      + P.a_voltage / P.b_voltage * beta
  else 0

/-- The branch part of one update step (glif_psc.cpp lines 399-525): spike
    component decay, then either the refractory countdown (with reset and the
    fatal consistency assertion once the countdown reaches zero or below) or
    exact integration with threshold evaluation and spike detection.  Returns
    the new state and the emitted spike offset, if any. -/
def coreStep (exp : ℚ → ℚ) (P : Params) (V : PropTable) (dt : ℚ) (mty : ℕ)
    (s : State) : Except UpdateErr (State × Option ℚ) :=
  let sc := spikeComponent exp P dt mty s.last_spike
  if 0 < s.t_ref_remaining then
    -- refractory countdown (lines 405-460)
    let r := s.t_ref_remaining - dt
    if r ≤ 0 then
      let u := resetU P mty s.U
      let th := resetThreshold P mty sc s.last_voltage s.threshold
      if th < u then .error .voltageResetAboveThreshold
      else
        .ok ({ s with
                U := u
                ASCurrents := ascReset exp P V.t_ref_total mty s.ASCurrents
                threshold := th
                last_spike := resetLastSpike P mty sc
                t_ref_remaining := r }, none)
    else
      -- hold the voltage at the last peak (line 458)
      .ok ({ s with U := s.U, last_spike := sc, t_ref_remaining := r }, none)
  else
    -- integration branch (lines 461-525)
    let ascSum := if mty = 3 ∨ mty = 4 ∨ mty = 5 then s.ASCurrents.sum else 0
    let asc := if mty = 3 ∨ mty = 4 ∨ mty = 5 then
        List.zipWith (fun a kk => a * exp (-kk * dt)) s.ASCurrents P.k
      else s.ASCurrents
    let u := s.U * V.P33 + (s.I + ascSum) * V.P30
      + (List.zipWith (fun a b => a * b) V.P31 s.y1).sum
      + (List.zipWith (fun a b => a * b) V.P32 s.y2).sum
    let vc := voltageComponent exp P dt mty s.last_voltage s.U (s.I + ascSum)
    let th := sc + vc + P.th_inf
    let s1 : State :=
      { s with
        U := u
        ASCurrents := asc
        ASCurrents_sum := ascSum
        I_syn := s.y2.sum
        threshold := th
        last_spike := sc
        last_voltage := vc }
    if th < u then
      .ok ({ s1 with t_ref_remaining := V.t_ref_total },
        some (spike_offset s.U s.threshold u th dt))
    else .ok (s1, none)

/-- Alpha-shape PSC stage-1 advance (lines 528-536): y1[i] decays by P11[i]
    and receives PSCInitialValues[i] times the spike weight consumed for this
    step. -/
def stepY1 (V : PropTable) (spk : List ℚ) (y1 : List ℚ) : List ℚ :=
  List.zipWith (fun a b => a + b)
    (List.zipWith (fun a b => a * b) V.P11 y1)
    (List.zipWith (fun a b => a * b) V.PSCInitialValues spk)

/-- Alpha-shape PSC stage-2 advance (line 530): y2[i] = P21[i]*y1[i] + P22[i]*y2[i],
    computed from the pre-advance y1. -/
def stepY2 (V : PropTable) (y1 y2 : List ℚ) : List ℚ :=
  List.zipWith (fun a b => a + b)
    (List.zipWith (fun a b => a * b) V.P21 y1)
    (List.zipWith (fun a b => a * b) V.P22 y2)

/-- One full iteration of the lag loop (lines 392-554): the branch part,
    then—regardless of which branch ran—the alpha-shape PSC advance with the
    spikes consumed for this step and the external-current read (lines
    527-546).  The dead local cursum (lines 539-543) is computed and
    discarded in the source and is omitted here. -/
def updateStep (exp : ℚ → ℚ) (P : Params) (V : PropTable) (dt : ℚ) (mty : ℕ)
    (spk : List ℚ) (cur : ℚ) (s : State) : Except UpdateErr (State × Option ℚ) :=
  match coreStep exp P V dt mty s with
  | .error e => .error e
  | .ok (s1, o) =>
    .ok ({ s1 with y1 := stepY1 V spk s1.y1, y2 := stepY2 V s1.y1 s1.y2, I := cur }, o)

/-- Runs n iterations of the lag loop starting at lag index i, reading the
    per-step spike buffers and current buffer as functions of the lag. -/
def runFrom (exp : ℚ → ℚ) (P : Params) (V : PropTable) (dt : ℚ) (mty : ℕ)
    (spikes : ℕ → List ℚ) (cur : ℕ → ℚ) : ℕ → ℕ → State → Except UpdateErr State
  | _, 0, s => .ok s
  | i, n + 1, s =>
    match updateStep exp P V dt mty (spikes i) (cur i) s with
    | .error e => .error e
    | .ok (s1, _) => runFrom exp P V dt mty spikes cur (i + 1) n s1

/-- std::transform(model_str.begin(), model_str.end(), model_str.begin(),
    tolower) (glif_psc.cpp lines 378-379): per-character lower-casing of the
    model string. -/
def strToLower (s : String) : String :=
  String.mk (s.data.map Char.toLower)

/-- update (glif_psc.cpp lines 370-555): the model-type string is lower-cased
    and looked up in model_type_lu before the lag loop; an unknown string
    throws BadProperty before any step is taken (lines 376-385). -/
def glifUpdate (exp : ℚ → ℚ) (P : Params) (V : PropTable) (dt : ℚ)
    (spikes : ℕ → List ℚ) (cur : ℕ → ℚ) (n : ℕ) (s : State) :
    Except UpdateErr State :=
  match model_type_lu (strToLower P.glif_model) with
  | none => .error .badGlifModelType
  | some mty => runFrom exp P V dt mty spikes cur 0 n s

/-- add_value into a ring-buffer slot: the accumulated value at index i grows
    by w (RingBuffer::add_value semantics). -/
def addValue (l : List ℚ) (i : ℕ) (w : ℚ) : List ℚ :=
  l.set i (l.getD i 0 + w)

/-- A SpikeEvent as seen by handle(): 1-based receptor port, relative
    delivery step, weight and multiplicity. -/
structure SpikeEv where
  rport : ℕ
  delivery : ℕ
  weight : ℚ
  mult : ℚ
  deriving DecidableEq, Repr

/-- handle(SpikeEvent&) (glif_psc.cpp lines 570-578): adds
    weight * multiplicity into the ring buffer of receptor rport-1 at the
    relative delivery step.  Buffers are modelled as the per-step list of
    accumulated values each receptor's buffer hands to update() at that
    step. -/
def handleSpikeEvent (B : ℕ → List ℚ) (e : SpikeEv) : ℕ → List ℚ :=
  fun n => if n = e.delivery then addValue (B n) (e.rport - 1) (e.weight * e.mult) else B n

/-- The empty spike buffers for nrec receptor ports. -/
def emptyBuffers (nrec : ℕ) : ℕ → List ℚ := fun _ => List.replicate nrec 0

/-- handles_test_event(SpikeEvent&, rport) (glif_psc.cpp lines 557-568): a
    receptor port outside 1..n_receptors_ is an addressing error
    (IncompatibleReceptorType); otherwise the connection is accepted and
    registered by setting has_connections_ = true. -/
def handles_test_event (p : Params) (receptor_type : ℤ) :
    Except String (Params × ℤ) :=
  if receptor_type ≤ 0 ∨ receptor_type > (p.tau_syn.length : ℤ) then
    .error "IncompatibleReceptorType"
  else .ok ({ p with has_connections := true }, receptor_type)

/-- Boolean success test on Except. -/
def okB {ε α : Type} : Except ε α → Bool
  | .ok _ => true
  | .error _ => false

/- ----------------------------------------------------------------
   Concrete instances used by the witnesses
   ---------------------------------------------------------------- -/

/-- A simple well-formed parameter set used as concrete input in witnesses. -/
def pW : Params :=
  { E_L := 0, G := 1, th_inf := 10, C_m := 1, t_ref := 1, V_reset := 0,
    a_spike := 1, b_spike := 1, voltage_reset_a := 1, voltage_reset_b := 1,
    a_voltage := 1, b_voltage := 1, asc_init := [0], k := [1], asc_amps := [0],
    r := [1], tau_syn := [2], has_connections := false, glif_model := "lif" }

/-- pW with a registered connection, exercising the frozen-port guard. -/
def pWconn : Params := { pW with has_connections := true }

/-- pW with after-spike current amplitude 2 and the "lif_asc" variant tag. -/
def pW7 : Params := { pW with asc_amps := [2], glif_model := "lif_asc" }

/-- The propagator table of pW at step size 1 (with exp and the propagator_3x
    helpers instantiated to explicit functions). -/
def Vw : PropTable :=
  calibrate (fun x => x) (fun _ _ _ _ => 0) (fun _ _ _ _ => 0) pW 1

/-- A state in the refractory period with 1.5 ms remaining. -/
def sWr : State :=
  { U := 1, ASCurrents := [0], ASCurrents_sum := 0, threshold := 5, I := 0, I_syn := 0,
    y1 := [0], y2 := [0], t_ref_remaining := 3/2, last_spike := 0, last_voltage := 0 }

/-- A state at its last refractory step (0.5 ms remaining at step size 1). -/
def sW7 : State :=
  { U := 1, ASCurrents := [1], ASCurrents_sum := 0, threshold := 5, I := 0, I_syn := 0,
    y1 := [0], y2 := [0], t_ref_remaining := 1/2, last_spike := 0, last_voltage := 0 }

/-- The state updateStep produces from sW7 for the glif3 variant: the
    after-spike current is reset to 2 + 1*1*exp(-1*1) = 1 under exp = id. -/
def s7out : State :=
  { U := 0, ASCurrents := [1], ASCurrents_sum := 0, threshold := 5, I := 0, I_syn := 0,
    y1 := [0], y2 := [0], t_ref_remaining := -(1/2), last_spike := 0, last_voltage := 0 }

/-- sW7 with a threshold below the reset potential: the reset consistency
    assertion fires on leaving the refractory period. -/
def sW8 : State := { sW7 with threshold := -1 }

/-- A quiescent integrating state with one receptor port and empty synaptic
    stage variables. -/
def s09 : State :=
  { U := 0, ASCurrents := [0], ASCurrents_sum := 0, threshold := 0, I := 0, I_syn := 0,
    y1 := [0], y2 := [0], t_ref_remaining := 0, last_spike := 0, last_voltage := 0 }

/-- The state reached from s09 after 3 steps with a unit spike delivered to
    receptor 0 at step 1: y1 = A*q and y2 = 1*dt*A*q with A = exp 1 / 2 = 1/2
    and q = exp(-1/2) = -1/2 under exp = id. -/
def s39 : State :=
  { U := 0, ASCurrents := [0], ASCurrents_sum := 0, threshold := 10, I := 0, I_syn := 0,
    y1 := [-(1/4)], y2 := [-(1/4)], t_ref_remaining := 0, last_spike := 0, last_voltage := 0 }

/- ----------------------------------------------------------------
   General lemmas about the embedding
   ---------------------------------------------------------------- -/

lemma getD_zipWith {α : Type} (f : α → α → α) (d0 : α) :
    ∀ (a b : List α) (j : ℕ), j < a.length → j < b.length →
      (List.zipWith f a b).getD j d0 = f (a.getD j d0) (b.getD j d0)
  | _ :: _, _ :: _, 0, _, _ => rfl
  | _ :: a, _ :: b, j + 1, ha, hb =>
      getD_zipWith f d0 a b j (Nat.lt_of_succ_lt_succ ha) (Nat.lt_of_succ_lt_succ hb)

lemma getD_replicate_zero : ∀ (n j : ℕ), (List.replicate n (0 : ℚ)).getD j 0 = 0
  | 0, 0 => rfl
  | 0, _ + 1 => rfl
  | _ + 1, 0 => rfl
  | n + 1, j + 1 => getD_replicate_zero n j

lemma getD_set_self {α : Type} (d0 : α) :
    ∀ (l : List α) (i : ℕ) (v : α), i < l.length → (l.set i v).getD i d0 = v
  | _ :: _, 0, _, _ => rfl
  | _ :: l, i + 1, v, h => getD_set_self d0 l i v (Nat.lt_of_succ_lt_succ h)

lemma getD_map_q (f : ℚ → ℚ) :
    ∀ (l : List ℚ) (i : ℕ), i < l.length → (l.map f).getD i 0 = f (l.getD i 0)
  | _ :: _, 0, _ => rfl
  | _ :: l, i + 1, h => getD_map_q f l i (Nat.lt_of_succ_lt_succ h)

set_option maxHeartbeats 2000000 in
lemma checkParams_ok {d : Dict} {a x : Params × ℚ}
    (h : checkParams d a = .ok x) : x = a := by
  unfold checkParams at h
  split_ifs at h <;> (try injection h with h2) <;> (try exact h2.symm)

lemma Parameters_set_ok {p : Params} {d : Dict} {q : Params} {δ : ℚ}
    (h : Parameters_set p d = .ok (q, δ)) : (q, δ) = applyUpdates p d :=
  checkParams_ok h

lemma applyUpdates_empty (pv : Params) : applyUpdates pv emptyDict = (pv, 0) := by
  cases pv
  simp [applyUpdates, emptyDict]

lemma checkParams_of_valid {pv : Params} {z : ℚ} {d : Dict} (hv : validParams pv)
    (hts : d.tau_syn = none) : checkParams d (pv, z) = .ok (pv, z) := by
  obtain ⟨h1, h2, h3, h4, h5, h6, h7⟩ := hv
  have hk : ¬((pv.k.any fun x => decide (x ≤ 0)) = true) := by
    simp only [List.any_eq_true, decide_eq_true_eq, not_exists]
    simpa using h7
  have hs : ¬(d.tau_syn.isSome = true) := by simp [hts]
  unfold checkParams
  rw [if_neg (not_le.mpr h1), if_neg (not_le.mpr h2), if_neg (not_le.mpr h3),
    if_neg (not_le.mpr h4), if_neg (not_le.mpr h5), if_neg (not_le.mpr h6),
    if_neg hk, if_neg hs]

section UpdateKernel
variable (e : ℚ → ℚ) (p31 p32 : ℚ → ℚ → ℚ → ℚ → ℚ) (P : Params) (V : PropTable)
variable (dt : ℚ) (mty : ℕ) (sp : ℕ → List ℚ) (cu : ℕ → ℚ)

lemma runFrom_zero (i : ℕ) (s : State) :
    runFrom e P V dt mty sp cu i 0 s = .ok s := rfl

lemma runFrom_succ (i n : ℕ) (s : State) :
    runFrom e P V dt mty sp cu i (n + 1) s =
      match updateStep e P V dt mty (sp i) (cu i) s with
      | .error er => .error er
      | .ok (s1, _) => runFrom e P V dt mty sp cu (i + 1) n s1 := rfl

lemma runFrom_add (i a b : ℕ) (s : State) :
    runFrom e P V dt mty sp cu i (a + b) s =
      match runFrom e P V dt mty sp cu i a s with
      | .error er => .error er
      | .ok t => runFrom e P V dt mty sp cu (i + a) b t := by
  induction a generalizing i s with
  | zero => simp [runFrom_zero]
  | succ n ih =>
    have hn : n + 1 + b = (n + b) + 1 := by omega
    rw [hn, runFrom_succ, runFrom_succ]
    cases hu : updateStep e P V dt mty (sp i) (cu i) s with
    | error er => rfl
    | ok pr =>
      cases pr with
      | mk s1 o =>
        dsimp only
        rw [ih]
        have hi : i + 1 + n = i + (n + 1) := by omega
        rw [hi]

lemma runFrom_ok_split {i a b : ℕ} {s t : State}
    (h : runFrom e P V dt mty sp cu i (a + b) s = .ok t) :
    ∃ u, runFrom e P V dt mty sp cu i a s = .ok u ∧
      runFrom e P V dt mty sp cu (i + a) b u = .ok t := by
  rw [runFrom_add] at h
  cases hu : runFrom e P V dt mty sp cu i a s with
  | error er => rw [hu] at h; cases h
  | ok u => rw [hu] at h; exact ⟨u, rfl, h⟩

lemma updateStep_hold {s : State} (spk : List ℚ) (cur : ℚ)
    (h1 : 0 < s.t_ref_remaining) (h2 : ¬s.t_ref_remaining - dt ≤ 0) :
    updateStep e P V dt mty spk cur s =
      .ok ({ s with
              U := s.U,
              last_spike := spikeComponent e P dt mty s.last_spike,
              t_ref_remaining := s.t_ref_remaining - dt,
              y1 := stepY1 V spk s.y1,
              y2 := stepY2 V s.y1 s.y2,
              I := cur }, none) := by
  simp only [updateStep, coreStep, if_pos h1, if_neg h2]

lemma updateStep_end {s : State} (spk : List ℚ) (cur : ℚ)
    (h1 : 0 < s.t_ref_remaining) (h2 : s.t_ref_remaining - dt ≤ 0)
    (h3 : ¬resetThreshold P mty (spikeComponent e P dt mty s.last_spike)
        s.last_voltage s.threshold < resetU P mty s.U) :
    updateStep e P V dt mty spk cur s =
      .ok ({ s with
              U := resetU P mty s.U,
              ASCurrents := ascReset e P V.t_ref_total mty s.ASCurrents,
              threshold := resetThreshold P mty (spikeComponent e P dt mty s.last_spike)
                s.last_voltage s.threshold,
              last_spike := resetLastSpike P mty (spikeComponent e P dt mty s.last_spike),
              t_ref_remaining := s.t_ref_remaining - dt,
              y1 := stepY1 V spk s.y1,
              y2 := stepY2 V s.y1 s.y2,
              I := cur }, none) := by
  simp only [updateStep, coreStep, if_pos h1, if_pos h2, if_neg h3]

lemma updateStep_end_bad {s : State} (spk : List ℚ) (cur : ℚ)
    (h1 : 0 < s.t_ref_remaining) (h2 : s.t_ref_remaining - dt ≤ 0)
    (h3 : resetThreshold P mty (spikeComponent e P dt mty s.last_spike)
        s.last_voltage s.threshold < resetU P mty s.U) :
    updateStep e P V dt mty spk cur s = .error .voltageResetAboveThreshold := by
  simp only [updateStep, coreStep, if_pos h1, if_pos h2, if_pos h3]

lemma updateStep_refr_ok {s : State} {out : State × Option ℚ} (spk : List ℚ) (cur : ℚ)
    (h1 : 0 < s.t_ref_remaining)
    (h : updateStep e P V dt mty spk cur s = .ok out) :
    out.1.t_ref_remaining = s.t_ref_remaining - dt ∧ out.2 = none ∧
      (¬s.t_ref_remaining - dt ≤ 0 → out.1.U = s.U ∧ out.1.ASCurrents = s.ASCurrents) := by
  by_cases h2 : s.t_ref_remaining - dt ≤ 0
  · by_cases h3 : resetThreshold P mty (spikeComponent e P dt mty s.last_spike)
        s.last_voltage s.threshold < resetU P mty s.U
    · rw [updateStep_end_bad e P V dt mty spk cur h1 h2 h3] at h
      cases h
    · rw [updateStep_end e P V dt mty spk cur h1 h2 h3] at h
      injection h with h
      subst h
      exact ⟨rfl, rfl, fun hc => absurd h2 hc⟩
  · rw [updateStep_hold e P V dt mty spk cur h1 h2] at h
    injection h with h
    subst h
    exact ⟨rfl, rfl, fun _ => ⟨rfl, rfl⟩⟩

set_option maxHeartbeats 2000000 in
lemma coreStep_y {s : State} {pr : State × Option ℚ}
    (h : coreStep e P V dt mty s = .ok pr) :
    pr.1.y1 = s.y1 ∧ pr.1.y2 = s.y2 := by
  simp only [coreStep] at h
  split_ifs at h <;> (injection h with h2) <;> (try subst h2) <;> exact ⟨rfl, rfl⟩

lemma updateStep_ok_y {s : State} {out : State × Option ℚ} {spk : List ℚ} {cur : ℚ}
    (h : updateStep e P V dt mty spk cur s = .ok out) :
    out.1.y1 = stepY1 V spk s.y1 ∧ out.1.y2 = stepY2 V s.y1 s.y2 ∧ out.1.I = cur := by
  unfold updateStep at h
  cases hc : coreStep e P V dt mty s with
  | error er => rw [hc] at h; cases h
  | ok pr =>
    rw [hc] at h
    cases pr with
    | mk s1 o =>
      dsimp only at h
      injection h with h
      subst h
      obtain ⟨hy1, hy2⟩ := coreStep_y e P V dt mty hc
      dsimp only at hy1 hy2 ⊢
      rw [hy1, hy2]
      exact ⟨rfl, rfl, rfl⟩

end UpdateKernel

/- ----------------------------------------------------------------
   C1: validation failure leaves the node untouched (atomic set)
   ---------------------------------------------------------------- -/

/-- C1: if any validation check of Parameters_::set fails, set_status
    propagates the configuration error (BadProperty) and no partial parameter
    mutation is visible: the node is left untouched, so a subsequent get()
    returns exactly the prior values for every parameter and state key. -/
theorem set_status_failure_atomic (nd : Node) (d : Dict) (e : String)
    (hfail : Parameters_set nd.P d = .error e) :
    set_status nd d = (nd, some e) ∧
      Parameters_get (set_status nd d).1.P = Parameters_get nd.P ∧
      State_get (set_status nd d).1.S (set_status nd d).1.P = State_get nd.S nd.P := by
  simp [set_status, hfail]

/-- Witness for C1: setting C_m = -1 on a valid node fails with the
    capacitance error and get() reads back the prior values. -/
theorem set_status_failure_atomic_witness :
    Parameters_set (Node.mk pW (initState pW)).P { C_m := some (-1) } =
        .error "Capacitance must be strictly positive." ∧
      set_status (Node.mk pW (initState pW)) { C_m := some (-1) } =
        (Node.mk pW (initState pW), some "Capacitance must be strictly positive.") ∧
      Parameters_get (set_status (Node.mk pW (initState pW)) { C_m := some (-1) }).1.P =
        Parameters_get (Node.mk pW (initState pW)).P :=
  ⟨by norm_num [Parameters_set, checkParams, applyUpdates, pW],
    (set_status_failure_atomic (Node.mk pW (initState pW)) { C_m := some (-1) }
      "Capacitance must be strictly positive."
      (by norm_num [Parameters_set, checkParams, applyUpdates, pW])).1,
    (set_status_failure_atomic (Node.mk pW (initState pW)) { C_m := some (-1) }
      "Capacitance must be strictly positive."
      (by norm_num [Parameters_set, checkParams, applyUpdates, pW])).2.1⟩

/- ----------------------------------------------------------------
   C2: the frozen-receptor-port guard is dead code
   ---------------------------------------------------------------- -/

/-- C2 (code bug): after a connection to port 1 is registered via
    handles_test_event (so has_connections_ = true) on a neuron with one
    receptor port, a set() that changes tau_syn to a two-element vector
    SUCCEEDS and changes the port count, because tau_syn_ is already updated
    at line 180, so old_n_receptors (line 224) is read from the new vector
    and the guard at line 227 compares the new length with itself and can
    never throw.  The claim (and spec section 3) requires this call to fail
    with a configuration error. -/
theorem port_count_guard_never_fires :
    handles_test_event pW 1 = .ok (pWconn, 1) ∧
      pWconn.has_connections = true ∧
      pWconn.tau_syn.length = 1 ∧
      Parameters_set pWconn { tau_syn := some [1, 1] } =
        .ok ({ pWconn with tau_syn := [1, 1] }, 0) := by
  refine ⟨by norm_num [handles_test_event, pWconn, pW], rfl, rfl, ?_⟩
  norm_num [Parameters_set, checkParams, applyUpdates, pWconn, pW]

/- ----------------------------------------------------------------
   C3: sub-step spike-time interpolation
   ---------------------------------------------------------------- -/

/-- C3 counterexample: with pre-step (9, 10) and post-step (12, 10.5) over a
    1 ms step, the kernel computes offset 3/5 = 0.6 ms, not ≈ 0.67 ms; the
    two linear trajectories intersect at 2/5 = 0.4 ms from step start, and
    0.6 ms from step start is not an intersection point, so the computed
    offset is not the crossing time measured from step start. -/
theorem spike_offset_not_067_from_start :
    spike_offset 9 10 12 10.5 1 = 3 / 5 ∧
      (9 + (12 - 9) * (2 / 5) = 10 + ((10.5 : ℚ) - 10) * (2 / 5)) ∧
      ¬(9 + (12 - 9) * (3 / 5) = 10 + ((10.5 : ℚ) - 10) * (3 / 5)) ∧
      spike_offset 9 10 12 10.5 1 ≠ 67 / 100 := by
  norm_num [spike_offset]

/-- C3 amended: the computed offset is the exact intersection of the two
    linear trajectories expressed as time BEFORE the step end: at
    t = dt - spike_offset after step start, the interpolated potential and
    threshold coincide (for the example this is t = 0.4 ms, i.e. an offset
    of 0.6 ms before step end), so the spike is placed at the exact crossing
    rather than at the step end. -/
theorem spike_offset_exact_crossing (v th u T dt : ℚ) (hdt : dt ≠ 0)
    (hden : (T - th) - (u - v) ≠ 0) :
    v + (u - v) * ((dt - spike_offset v th u T dt) / dt) =
      th + (T - th) * ((dt - spike_offset v th u T dt) / dt) := by
  unfold spike_offset
  field_simp
  ring

/-- Witness for the amended C3 at the concrete inputs of the claim. -/
theorem spike_offset_exact_crossing_witness :
    (1 : ℚ) ≠ 0 ∧ ((10.5 : ℚ) - 10) - (12 - 9) ≠ 0 ∧
      9 + (12 - 9) * ((1 - spike_offset 9 10 12 10.5 1) / 1) =
        10 + ((10.5 : ℚ) - 10) * ((1 - spike_offset 9 10 12 10.5 1) / 1) :=
  ⟨by norm_num, by norm_num,
    spike_offset_exact_crossing 9 10 12 10.5 1 (by norm_num) (by norm_num)⟩

set_option maxHeartbeats 2000000 in
lemma checkParams_ok_iff {d : Dict} {a : Params × ℚ} :
    checkParams d a = .ok a ↔
      ¬a.1.th_inf ≤ a.1.V_reset ∧ ¬a.1.C_m ≤ 0 ∧ ¬a.1.G ≤ 0 ∧
      ¬a.1.t_ref ≤ 0 ∧ ¬a.1.b_voltage ≤ 0 ∧ ¬a.1.b_spike ≤ 0 ∧
      ¬(a.1.k.any fun x => decide (x ≤ 0)) = true ∧
      (d.tau_syn.isSome = true → ¬(a.1.tau_syn.any fun x => decide (x ≤ 0)) = true) := by
  unfold checkParams
  split_ifs <;> simp_all

lemma applyUpdates_glif (p : Params) (d : Dict) (str : String) :
    applyUpdates p { d with glif_model := some str } =
      ({ (applyUpdates p d).1 with glif_model := str }, (applyUpdates p d).2) := rfl

/- ----------------------------------------------------------------
   C10: glif_model is not validated by set(); checked at update()
   ---------------------------------------------------------------- -/

/-- C10: Parameters_::set accepts any string for the glif_model key without
    validating it (adding any glif_model entry to an accepted dictionary
    never changes acceptance, and the string is stored verbatim); an
    unrecognised model string is detected only by update(), which lower-cases
    the stored string (strToLower), looks it up in model_type_lu, and fails
    with the BadProperty configuration error before any state is advanced for
    the step range. -/
theorem glif_model_checked_only_at_update :
    (∀ (p : Params) (d : Dict) (str : String) (q : Params) (δ : ℚ),
      Parameters_set p d = .ok (q, δ) →
      Parameters_set p { d with glif_model := some str } =
        .ok ({ q with glif_model := str }, δ)) ∧
    (∀ (e2 : ℚ → ℚ) (P : Params) (V : PropTable) (dt : ℚ)
        (spikes : ℕ → List ℚ) (cur : ℕ → ℚ) (n : ℕ) (s : State),
      model_type_lu (strToLower P.glif_model) = none →
      glifUpdate e2 P V dt spikes cur n s = .error .badGlifModelType) := by
  constructor
  · intro p d str q δ h
    have ha : (q, δ) = applyUpdates p d := Parameters_set_ok h
    unfold Parameters_set at h ⊢
    rw [← ha] at h
    rw [applyUpdates_glif, ← ha]
    dsimp only
    exact checkParams_ok_iff.mpr ((@checkParams_ok_iff d (q, δ)).mp h)
  · intro e2 P V dt spikes cur n s h
    simp [glifUpdate, h]

/-- Witness for C10: the string "bogus" is accepted by set() and stored, and
    update() on the resulting parameters fails with the model-type error. -/
theorem glif_model_checked_only_at_update_witness :
    Parameters_set pW { emptyDict with glif_model := some "bogus" } =
        .ok ({ pW with glif_model := "bogus" }, 0) ∧
      model_type_lu (strToLower "bogus") = none ∧
      glifUpdate (fun x => x) { pW with glif_model := "bogus" }
          (calibrate (fun x => x) (fun _ _ _ _ => 0) (fun _ _ _ _ => 0) pW 1) 1
          (fun _ => [0]) (fun _ => 0) 3 (initState pW) =
        .error .badGlifModelType :=
  ⟨glif_model_checked_only_at_update.1 pW emptyDict "bogus" pW 0
      (by norm_num [Parameters_set, checkParams, applyUpdates, pW, emptyDict]),
    by decide,
    glif_model_checked_only_at_update.2 (fun x => x) { pW with glif_model := "bogus" }
      (calibrate (fun x => x) (fun _ _ _ _ => 0) (fun _ _ _ _ => 0) pW 1) 1
      (fun _ => [0]) (fun _ => 0) 3 (initState pW) (by decide)⟩

/- ----------------------------------------------------------------
   C6: get() after set(): update/preserve per key, re-basing, round trip
   ---------------------------------------------------------------- -/

/-- C6: for every dictionary accepted by set(), a subsequent get() returns
    the updated value for every key present in the update and the previous
    value for every absent key (stated uniformly via Option.getD on the
    dictionary entry), with V_reset and V_th exposed as absolute potentials
    (rebased value plus the new resting potential), correctly re-based when
    E_L changed; and a null update on any valid parameter set is accepted and
    leaves every parameter unchanged (get/set round trip). -/
theorem get_after_set (p : Params) (d : Dict) :
    (∀ q δ, Parameters_set p d = .ok (q, δ) →
      δ = d.E_L.getD p.E_L - p.E_L ∧
      Parameters_get q =
        { V_th := d.V_th.getD (Parameters_get p).V_th
          g := d.g.getD (Parameters_get p).g
          E_L := d.E_L.getD (Parameters_get p).E_L
          C_m := d.C_m.getD (Parameters_get p).C_m
          t_ref := d.t_ref.getD (Parameters_get p).t_ref
          V_reset := d.V_reset.getD (Parameters_get p).V_reset
          a_spike := d.a_spike.getD (Parameters_get p).a_spike
          b_spike := d.b_spike.getD (Parameters_get p).b_spike
          a_reset := d.a_reset.getD (Parameters_get p).a_reset
          b_reset := d.b_reset.getD (Parameters_get p).b_reset
          a_voltage := d.a_voltage.getD (Parameters_get p).a_voltage
          b_voltage := d.b_voltage.getD (Parameters_get p).b_voltage
          asc_init := d.asc_init.getD (Parameters_get p).asc_init
          k := d.k.getD (Parameters_get p).k
          asc_amps := d.asc_amps.getD (Parameters_get p).asc_amps
          r := d.r.getD (Parameters_get p).r
          tau_syn := d.tau_syn.getD (Parameters_get p).tau_syn
          has_connections := (Parameters_get p).has_connections
          glif_model := d.glif_model.getD (Parameters_get p).glif_model }) ∧
    (∀ pv : Params, validParams pv → Parameters_set pv emptyDict = .ok (pv, 0)) := by
  constructor
  · intro q δ h
    have hqa : (q, δ) = applyUpdates p d := Parameters_set_ok h
    have hq : q = (applyUpdates p d).1 := by rw [← hqa]
    have hd : δ = (applyUpdates p d).2 := by rw [← hqa]
    subst hq; subst hd
    refine ⟨rfl, ?_⟩
    apply GetDict.ext <;> simp only [Parameters_get, applyUpdates] <;>
      first
        | rfl
        | (cases d.V_th <;> simp <;> ring)
        | (cases d.V_reset <;> simp <;> ring)
  · intro pv hv
    unfold Parameters_set
    rw [applyUpdates_empty]
    exact checkParams_of_valid hv rfl

/-- Witness for C6: updating only E_L by +1 on pW rebases V_reset and th_inf,
    get() reads back the same absolute V_th and V_reset with the new E_L, and
    the null update returns pW unchanged with delta_EL = 0. -/
theorem get_after_set_witness :
    Parameters_set pW { E_L := some 1 } =
        .ok ({ pW with E_L := 1, V_reset := -1, th_inf := 9 }, 1) ∧
      Parameters_get { pW with E_L := 1, V_reset := -1, th_inf := 9 } =
        { Parameters_get pW with E_L := 1 } ∧
      Parameters_set pW emptyDict = .ok (pW, 0) :=
  ⟨by norm_num [Parameters_set, checkParams, applyUpdates, pW],
    by
      have h2 := ((get_after_set pW { E_L := some 1 }).1
        { pW with E_L := 1, V_reset := -1, th_inf := 9 } 1
        (by norm_num [Parameters_set, checkParams, applyUpdates, pW])).2
      rw [h2]
      norm_num [Parameters_get, pW],
    (get_after_set pW emptyDict).2 pW (by norm_num [validParams, pW])⟩

/- ----------------------------------------------------------------
   C5: the voltage-decay propagator P33
   ---------------------------------------------------------------- -/

/-- C5: for every valid parameter set (C_m > 0, G > 0) and step size h > 0,
    the voltage-decay coefficient P33 computed by calibrate equals the
    closed-form exponential decay exp(-h / (C_m / G)) of the membrane time
    constant C_m / G over one step, for every step size. -/
theorem P33_exact_decay (exp : ℚ → ℚ) (prop31 prop32 : ℚ → ℚ → ℚ → ℚ → ℚ)
    (P : Params) (h : ℚ) (hC : 0 < P.C_m) (hG : 0 < P.G) (hh : 0 < h) :
    (calibrate exp prop31 prop32 P h).P33 = exp (-(h / (P.C_m / P.G))) := by
  simp [calibrate, neg_div]

/-- Witness for C5 at C_m = 2, G = 1, h = 1 (with exp instantiated to an
    explicit function so the value is concrete). -/
theorem P33_exact_decay_witness :
    (0 : ℚ) < 2 ∧ (0 : ℚ) < 1 ∧ (0 : ℚ) < 1 ∧
      (calibrate (fun x => x) (fun _ _ _ _ => 0) (fun _ _ _ _ => 0)
        { pW with C_m := 2, G := 1 } 1).P33 = -(1 / (2 / 1)) :=
  ⟨by norm_num, by norm_num, by norm_num,
    P33_exact_decay (fun x => x) (fun _ _ _ _ => 0) (fun _ _ _ _ => 0)
      { pW with C_m := 2, G := 1 } 1 (by norm_num [pW]) (by norm_num [pW]) (by norm_num)⟩

section KernelClaims
variable (e : ℚ → ℚ) (p31 p32 : ℚ → ℚ → ℚ → ℚ → ℚ) (P : Params) (V : PropTable)
variable (dt : ℚ) (mty : ℕ) (sp : ℕ → List ℚ) (cu : ℕ → ℚ)

/- ----------------------------------------------------------------
   C4: the refractory period lasts exactly ceil(T_ref / h) steps
   ---------------------------------------------------------------- -/

/-- C4: once the remaining refractory time is set to T = t_ref_remaining > 0,
    the neuron takes the refractory branch for exactly ⌈T/dt⌉ consecutive
    steps: before each of steps 0..⌈T/dt⌉-1 the remaining time is
    T - n*dt > 0, each such step emits no spike, and (except for the final
    reset step) leaves the membrane potential and the adaptation currents
    untouched; after the ⌈T/dt⌉-th step the remaining time is ≤ 0, so normal
    integrating dynamics resume. -/
theorem refractory_exact_ceil_steps (s : State)
    (hdt : 0 < dt) (hT : 0 < s.t_ref_remaining)
    (hrun : okB (runFrom e P V dt mty sp cu 0 (⌈s.t_ref_remaining / dt⌉.toNat) s) = true) :
    (∀ n, n < (⌈s.t_ref_remaining / dt⌉).toNat →
      ∃ sn out,
        runFrom e P V dt mty sp cu 0 n s = .ok sn ∧
        sn.t_ref_remaining = s.t_ref_remaining - n * dt ∧
        0 < sn.t_ref_remaining ∧
        updateStep e P V dt mty (sp n) (cu n) sn = .ok out ∧
        out.2 = none ∧
        (n + 1 < (⌈s.t_ref_remaining / dt⌉).toNat →
          out.1.U = sn.U ∧ out.1.ASCurrents = sn.ASCurrents)) ∧
    (∀ sN, runFrom e P V dt mty sp cu 0 (⌈s.t_ref_remaining / dt⌉.toNat) s = .ok sN →
      sN.t_ref_remaining ≤ 0) := by
  have harith : ∀ n : ℕ, n < (⌈s.t_ref_remaining / dt⌉).toNat ↔
      (n : ℚ) * dt < s.t_ref_remaining := by
    intro n
    rw [Int.lt_toNat, Int.lt_ceil, lt_div_iff₀ hdt]
    push_cast
    rfl
  obtain ⟨sN0, hsN0⟩ : ∃ t,
      runFrom e P V dt mty sp cu 0 (⌈s.t_ref_remaining / dt⌉.toNat) s = .ok t := by
    cases hr : runFrom e P V dt mty sp cu 0 (⌈s.t_ref_remaining / dt⌉.toNat) s with
    | error er => rw [hr] at hrun; simp [okB] at hrun
    | ok t => exact ⟨t, rfl⟩
  have stepOk : ∀ m, m + 1 ≤ (⌈s.t_ref_remaining / dt⌉).toNat →
      ∀ sm, runFrom e P V dt mty sp cu 0 m s = .ok sm →
      ∃ out, updateStep e P V dt mty (sp m) (cu m) sm = .ok out ∧
        runFrom e P V dt mty sp cu 0 (m + 1) s = .ok out.1 := by
    intro m hm sm hsm
    have hsplit : (⌈s.t_ref_remaining / dt⌉).toNat =
        (m + 1) + ((⌈s.t_ref_remaining / dt⌉).toNat - (m + 1)) := by omega
    have hfull := hsN0
    rw [hsplit] at hfull
    obtain ⟨u, hu, _⟩ := runFrom_ok_split e P V dt mty sp cu hfull
    obtain ⟨u1, hu1, hu2⟩ := runFrom_ok_split e P V dt mty sp cu (a := m) (b := 1) hu
    rw [hsm] at hu1
    injection hu1 with hq
    subst hq
    rw [Nat.zero_add, runFrom_succ] at hu2
    cases hstep : updateStep e P V dt mty (sp m) (cu m) sm with
    | error er => rw [hstep] at hu2; cases hu2
    | ok pr =>
      rw [hstep] at hu2
      cases pr with
      | mk s1 o =>
        dsimp only at hu2
        rw [runFrom_zero] at hu2
        injection hu2 with hq2
        exact ⟨(s1, o), rfl, by rw [hu, hq2]⟩
  have key : ∀ n, n ≤ (⌈s.t_ref_remaining / dt⌉).toNat →
      ∃ sn, runFrom e P V dt mty sp cu 0 n s = .ok sn ∧
        sn.t_ref_remaining = s.t_ref_remaining - n * dt := by
    intro n
    induction n with
    | zero => intro _; exact ⟨s, runFrom_zero e P V dt mty sp cu 0 s, by push_cast; ring⟩
    | succ m ih =>
      intro hm1
      obtain ⟨sm, hrunm, hremm⟩ := ih (Nat.le_of_succ_le hm1)
      have hpos : 0 < sm.t_ref_remaining := by
        rw [hremm]
        have := (harith m).mp (by omega)
        linarith
      obtain ⟨out, hstep, hnext⟩ := stepOk m hm1 sm hrunm
      obtain ⟨ha, _, _⟩ := updateStep_refr_ok e P V dt mty (sp m) (cu m) hpos hstep
      refine ⟨out.1, hnext, ?_⟩
      rw [ha, hremm]
      push_cast
      ring
  refine ⟨fun n hn => ?_, fun sN hsN => ?_⟩
  · obtain ⟨sn, hrn, hrem⟩ := key n (Nat.le_of_lt hn)
    obtain ⟨out, hstep, _⟩ := stepOk n hn sn hrn
    have hpos : 0 < sn.t_ref_remaining := by
      rw [hrem]
      have := (harith n).mp hn
      linarith
    obtain ⟨ha, hb, hc⟩ := updateStep_refr_ok e P V dt mty (sp n) (cu n) hpos hstep
    refine ⟨sn, out, hrn, hrem, hpos, hstep, hb, fun hn1 => ?_⟩
    apply hc
    have h2 := (harith (n + 1)).mp hn1
    rw [hrem]
    push_cast at h2
    intro hle
    nlinarith
  · obtain ⟨sn, hrn, hrem⟩ := key (⌈s.t_ref_remaining / dt⌉).toNat (Nat.le_refl _)
    rw [hsN] at hrn
    injection hrn with hq
    subst hq
    rw [hrem]
    have h0 : (0 : ℚ) < s.t_ref_remaining / dt := div_pos hT hdt
    have hnn : (0 : ℤ) ≤ ⌈s.t_ref_remaining / dt⌉ := Int.ceil_nonneg h0.le
    have hceil : s.t_ref_remaining / dt ≤ ((⌈s.t_ref_remaining / dt⌉.toNat : ℤ) : ℚ) := by
      rw [Int.toNat_of_nonneg hnn]
      exact_mod_cast Int.le_ceil (s.t_ref_remaining / dt)
    rw [div_le_iff₀ hdt] at hceil
    push_cast at hceil
    linarith

/- ----------------------------------------------------------------
   C7: after-spike current reset at the end of the refractory period
   ---------------------------------------------------------------- -/

/-- C7: at the step on which the remaining refractory time reaches zero or
    below, for the variants with after-spike currents (glif 3, 4 and 5) every
    adaptation current j is reset to
    asc_amps[j] + previous_j * r[j] * exp(-k[j] * t_ref_total), where
    previous_j is the current's value entering the step (unchanged since the
    spike, because refractory steps do not touch the adaptation currents, see
    C4); for the variants without after-spike currents (glif 1 and 2) the
    reset leaves the adaptation currents unchanged. -/
theorem asc_reset_at_refractory_end (spk : List ℚ) (cur : ℚ) (s : State)
    (out : State × Option ℚ)
    (h1 : 0 < s.t_ref_remaining) (h2 : s.t_ref_remaining - dt ≤ 0)
    (hok : updateStep e P V dt mty spk cur s = .ok out)
    (hl1 : P.asc_amps.length = s.ASCurrents.length)
    (hl2 : P.r.length = s.ASCurrents.length)
    (hl3 : P.k.length = s.ASCurrents.length) :
    ((mty = 3 ∨ mty = 4 ∨ mty = 5) →
      ∀ j, j < s.ASCurrents.length →
        out.1.ASCurrents.getD j 0 =
          P.asc_amps.getD j 0 +
            s.ASCurrents.getD j 0 * P.r.getD j 0 * e (-(P.k.getD j 0) * V.t_ref_total)) ∧
    ((mty = 1 ∨ mty = 2) → out.1.ASCurrents = s.ASCurrents) := by
  have h3 : ¬resetThreshold P mty (spikeComponent e P dt mty s.last_spike)
      s.last_voltage s.threshold < resetU P mty s.U := by
    intro hlt
    rw [updateStep_end_bad e P V dt mty spk cur h1 h2 hlt] at hok
    cases hok
  rw [updateStep_end e P V dt mty spk cur h1 h2 h3] at hok
  injection hok with hok
  subst hok
  constructor
  · intro hm j hj
    dsimp only
    rw [ascReset, if_pos hm]
    rw [getD_zipWith (fun amp x => amp + x) 0 _ _ j (by omega)
        (by simp [List.length_zipWith]; omega)]
    rw [getD_zipWith (fun a c => a * c) 0 _ _ j (by omega)
        (by simp [List.length_zipWith]; omega)]
    rw [getD_zipWith (fun rr kk => rr * e (-kk * V.t_ref_total)) 0 _ _ j (by omega) (by omega)]
    ring
  · intro hm
    dsimp only
    rcases hm with rfl | rfl <;> simp [ascReset]

/- ----------------------------------------------------------------
   C8: a reset above threshold is fatal
   ---------------------------------------------------------------- -/

/-- C8: at the step on which the refractory period ends, if the post-reset
    membrane potential exceeds the post-reset threshold, the step fails with
    the asserted consistency error (the source prints a diagnostic and then
    asserts U <= threshold, halting the simulation): updateStep returns the
    fatal error instead of a state—nothing is clamped—and the surrounding
    step-range run stops at that step and yields the same error. -/
theorem bad_reset_is_fatal (spk : List ℚ) (cur : ℚ) (s : State) (n : ℕ)
    (h1 : 0 < s.t_ref_remaining) (h2 : s.t_ref_remaining - dt ≤ 0)
    (hbad : resetThreshold P mty (spikeComponent e P dt mty s.last_spike)
        s.last_voltage s.threshold < resetU P mty s.U) :
    updateStep e P V dt mty spk cur s = .error .voltageResetAboveThreshold ∧
      runFrom e P V dt mty sp cu 0 (n + 1) s = .error .voltageResetAboveThreshold := by
  refine ⟨updateStep_end_bad e P V dt mty spk cur h1 h2 hbad, ?_⟩
  rw [runFrom_succ, updateStep_end_bad e P V dt mty (sp 0) (cu 0) h1 h2 hbad]

/- ----------------------------------------------------------------
   C9: a single unit-weight spike and the two-stage alpha kinetics
   ---------------------------------------------------------------- -/

/-- C9: deliver a single unit-weight spike event to receptor i (1-based port
    i+1) at step d, starting from zeroed synaptic stage variables.  For every
    prefix of the run: before step d both stage variables of receptor i are
    exactly 0 (zero synaptic contribution); at the end of step d the first
    stage variable jumps to e/tau_syn[i] (the PSC initial value, with e =
    exp 1); and after m further steps the stage variables follow the exact
    two-stage alpha kinetics y1 = (e/tau)*q^m and y2 = m*h*(e/tau)*q^m with
    per-step decay factor q = exp(-h/tau_syn[i]), which is nonzero whenever
    e/tau and q are nonzero. -/
theorem single_spike_alpha_kinetics (i d : ℕ) (s0 : State)
    (hi : i < P.tau_syn.length)
    (hy1 : s0.y1 = List.replicate P.tau_syn.length 0)
    (hy2 : s0.y2 = List.replicate P.tau_syn.length 0) :
    ∀ n sn,
      runFrom e P (calibrate e p31 p32 P dt) dt mty
        (handleSpikeEvent (emptyBuffers P.tau_syn.length) ⟨i + 1, d, 1, 1⟩) cu 0 n s0 =
        .ok sn →
      (sn.y1.length = P.tau_syn.length ∧ sn.y2.length = P.tau_syn.length) ∧
      (n ≤ d → sn.y1.getD i 0 = 0 ∧ sn.y2.getD i 0 = 0) ∧
      (∀ m, n = d + 1 + m →
        sn.y1.getD i 0 =
          e 1 / P.tau_syn.getD i 0 * e (-dt / P.tau_syn.getD i 0) ^ m ∧
        sn.y2.getD i 0 =
          m * dt * (e 1 / P.tau_syn.getD i 0) * e (-dt / P.tau_syn.getD i 0) ^ m ∧
        (e 1 / P.tau_syn.getD i 0 ≠ 0 → e (-dt / P.tau_syn.getD i 0) ≠ 0 →
          sn.y1.getD i 0 ≠ 0)) := by
  set nr := P.tau_syn.length with hnr
  set V2 := calibrate e p31 p32 P dt with hV
  set B := handleSpikeEvent (emptyBuffers nr) ⟨i + 1, d, 1, 1⟩ with hB
  set A := e 1 / P.tau_syn.getD i 0 with hA
  set q := e (-dt / P.tau_syn.getD i 0) with hq
  have hBlen : ∀ n, (B n).length = nr := by
    intro n
    by_cases hn : n = d <;>
      simp [hB, handleSpikeEvent, emptyBuffers, addValue, hn]
  have hBd : (B d).getD i 0 = 1 := by
    have hBdval : B d =
        (List.replicate nr 0).set i ((List.replicate nr 0).getD i 0 + 1 * 1) := by
      simp [hB, handleSpikeEvent, emptyBuffers, addValue]
    rw [hBdval, getD_set_self 0 _ _ _ (by simp; omega), getD_replicate_zero]
    norm_num
  have hBnot : ∀ n, n ≠ d → (B n).getD i 0 = 0 := by
    intro n hn
    simp [hB, handleSpikeEvent, emptyBuffers, hn, getD_replicate_zero]
  have hP11len : V2.P11.length = nr := by simp [hV, calibrate]
  have hP21len : V2.P21.length = nr := by simp [hV, calibrate]
  have hP22len : V2.P22.length = nr := by simp [hV, calibrate]
  have hPSClen : V2.PSCInitialValues.length = nr := by simp [hV, calibrate]
  have hP11 : V2.P11.getD i 0 = q := by
    simp only [hV, calibrate]
    rw [getD_map_q _ _ _ hi]
  have hP21 : V2.P21.getD i 0 = dt * q := by
    simp only [hV, calibrate]
    rw [getD_map_q _ _ _ hi]
  have hP22 : V2.P22.getD i 0 = q := by
    simp only [hV, calibrate]
    rw [getD_map_q _ _ _ hi]
  have hPSC : V2.PSCInitialValues.getD i 0 = A := by
    simp only [hV, calibrate]
    rw [getD_map_q _ _ _ hi]
  intro n
  induction n with
  | zero =>
    intro sn hrun
    rw [runFrom_zero] at hrun
    injection hrun with hrun
    subst hrun
    refine ⟨⟨by rw [hy1]; simp, by rw [hy2]; simp⟩, fun _ => ⟨?_, ?_⟩,
      fun m hm => absurd hm (by omega)⟩
    · rw [hy1, getD_replicate_zero]
    · rw [hy2, getD_replicate_zero]
  | succ n ih =>
    intro sn hrun
    obtain ⟨sm, hsm, hstep1⟩ :=
      runFrom_ok_split e P V2 dt mty B cu (i := 0) (a := n) (b := 1) hrun
    rw [Nat.zero_add, runFrom_succ] at hstep1
    cases hstep : updateStep e P V2 dt mty (B n) (cu n) sm with
    | error er => rw [hstep] at hstep1; cases hstep1
    | ok pr =>
      rw [hstep] at hstep1
      cases pr with
      | mk s1 o =>
        dsimp only at hstep1
        rw [runFrom_zero] at hstep1
        injection hstep1 with hstep1
        subst hstep1
        obtain ⟨IHlen, IHzero, IHpos⟩ := ih sm hsm
        obtain ⟨hy1v, hy2v, _⟩ := updateStep_ok_y e P V2 dt mty hstep
        dsimp only at hy1v hy2v
        have hyv1 : s1.y1.getD i 0 = q * sm.y1.getD i 0 + A * (B n).getD i 0 := by
          rw [hy1v]
          unfold stepY1
          rw [getD_zipWith (fun a b => a + b) 0 _ _ i
              (by simp [List.length_zipWith, hP11len, hP21len, hP22len, hPSClen,
                IHlen.1, IHlen.2, hBlen n]; omega)
              (by simp [List.length_zipWith, hP11len, hP21len, hP22len, hPSClen,
                IHlen.1, IHlen.2, hBlen n]; omega)]
          rw [getD_zipWith (fun a b => a * b) 0 _ _ i
              (by simp [hP11len]; omega) (by simp [IHlen.1]; omega)]
          rw [getD_zipWith (fun a b => a * b) 0 _ _ i
              (by simp [hPSClen]; omega) (by simp [hBlen n]; omega)]
          rw [hP11, hPSC]
        have hyv2 : s1.y2.getD i 0 = dt * q * sm.y1.getD i 0 + q * sm.y2.getD i 0 := by
          rw [hy2v]
          unfold stepY2
          rw [getD_zipWith (fun a b => a + b) 0 _ _ i
              (by simp [List.length_zipWith, hP21len, IHlen.1]; omega)
              (by simp [List.length_zipWith, hP22len, IHlen.2]; omega)]
          rw [getD_zipWith (fun a b => a * b) 0 _ _ i
              (by simp [hP21len]; omega) (by simp [IHlen.1]; omega)]
          rw [getD_zipWith (fun a b => a * b) 0 _ _ i
              (by simp [hP22len]; omega) (by simp [IHlen.2]; omega)]
          rw [hP21, hP22]
        refine ⟨⟨?_, ?_⟩, ?_, ?_⟩
        · rw [hy1v]
          simp [stepY1, List.length_zipWith, hP11len, hPSClen, IHlen.1, hBlen n]
        · rw [hy2v]
          simp [stepY2, List.length_zipWith, hP21len, hP22len, IHlen.1, IHlen.2]
        · intro hnd
          have h0 := IHzero (by omega)
          have hBn := hBnot n (by omega)
          exact ⟨by rw [hyv1, h0.1, hBn]; ring, by rw [hyv2, h0.1, h0.2]; ring⟩
        · intro m hm
          cases m with
          | zero =>
            have hnd : n = d := by omega
            have h0 := IHzero (by omega)
            refine ⟨?_, ?_, ?_⟩
            · rw [hyv1, h0.1, hnd, hBd]; ring
            · rw [hyv2, h0.1, h0.2]; push_cast; ring
            · intro hA0 hq0
              rw [hyv1, h0.1, hnd, hBd]
              have hval : q * 0 + A * 1 = A * q ^ 0 := by ring
              rw [hval]
              exact mul_ne_zero hA0 (pow_ne_zero _ hq0)
          | succ m2 =>
            have hn2 : n = d + 1 + m2 := by omega
            obtain ⟨ih1, ih2, _⟩ := IHpos m2 hn2
            have hBn := hBnot n (by omega)
            refine ⟨?_, ?_, ?_⟩
            · rw [hyv1, ih1, hBn]; ring
            · rw [hyv2, ih1, ih2]; push_cast; ring
            · intro hA0 hq0
              rw [hyv1, ih1, hBn]
              have hval : q * (A * q ^ m2) + A * 0 = A * q ^ (m2 + 1) := by ring
              rw [hval]
              exact mul_ne_zero hA0 (pow_ne_zero _ hq0)

end KernelClaims

/-- Witness for C4: from 1.5 ms remaining at step size 1 ms, the neuron is
    refractory for exactly ⌈1.5⌉ = 2 steps. -/
theorem refractory_exact_ceil_steps_witness :
    (0 : ℚ) < 1 ∧ 0 < sWr.t_ref_remaining ∧
      okB (runFrom (fun x => x) pW Vw 1 1 (fun _ => [0]) (fun _ => 0) 0
        (⌈sWr.t_ref_remaining / 1⌉.toNat) sWr) = true ∧
      ((∀ n, n < (⌈sWr.t_ref_remaining / 1⌉).toNat →
        ∃ sn out,
          runFrom (fun x => x) pW Vw 1 1 (fun _ => [0]) (fun _ => 0) 0 n sWr = .ok sn ∧
          sn.t_ref_remaining = sWr.t_ref_remaining - n * 1 ∧
          0 < sn.t_ref_remaining ∧
          updateStep (fun x => x) pW Vw 1 1 [0] 0 sn = .ok out ∧
          out.2 = none ∧
          (n + 1 < (⌈sWr.t_ref_remaining / 1⌉).toNat →
            out.1.U = sn.U ∧ out.1.ASCurrents = sn.ASCurrents)) ∧
      (∀ sN, runFrom (fun x => x) pW Vw 1 1 (fun _ => [0]) (fun _ => 0) 0
          (⌈sWr.t_ref_remaining / 1⌉.toNat) sWr = .ok sN → sN.t_ref_remaining ≤ 0)) := by
  have hrun : okB (runFrom (fun x => x) pW Vw 1 1 (fun _ => [0]) (fun _ => 0) 0
      (⌈sWr.t_ref_remaining / 1⌉.toNat) sWr) = true := by
    have hN : (⌈sWr.t_ref_remaining / 1⌉).toNat = 0 + 1 + 1 := by
      have hc : ⌈sWr.t_ref_remaining / 1⌉ = (2 : ℤ) := by
        rw [Int.ceil_eq_iff]
        norm_num [sWr]
      rw [hc]
      rfl
    rw [hN]
    norm_num [sWr, Vw, pW, runFrom, updateStep, coreStep, stepY1, stepY2, spikeComponent,
      resetU, resetThreshold, resetLastSpike, ascReset, voltageComponent, spike_offset,
      okB, calibrate]
  exact ⟨by norm_num, by norm_num [sWr], hrun,
    refractory_exact_ceil_steps (fun x => x) pW Vw 1 1 (fun _ => [0]) (fun _ => 0) sWr
      (by norm_num) (by norm_num [sWr]) hrun⟩

/-- Witness for C7: for the glif3 variant at the last refractory step, the
    after-spike current [1] with amplitude [2], ratio [1], rate [1] and total
    refractory time 1 resets to 2 + 1*1*exp(-1) = 1 under exp = id; for the
    glif1 variant it would be left unchanged. -/
theorem asc_reset_at_refractory_end_witness :
    0 < sW7.t_ref_remaining ∧ sW7.t_ref_remaining - 1 ≤ 0 ∧
      updateStep (fun x => x) pW7 Vw 1 3 [0] 0 sW7 = .ok (s7out, none) ∧
      s7out.ASCurrents.getD 0 0 =
        pW7.asc_amps.getD 0 0 + sW7.ASCurrents.getD 0 0 * pW7.r.getD 0 0 *
          (fun x => x) (-(pW7.k.getD 0 0) * Vw.t_ref_total) := by
  have hok : updateStep (fun x => x) pW7 Vw 1 3 [0] 0 sW7 = .ok (s7out, none) := by
    norm_num [updateStep, coreStep, stepY1, stepY2, spikeComponent, resetU,
      resetThreshold, resetLastSpike, ascReset, voltageComponent, sW7, s7out,
      pW7, pW, Vw, calibrate]
  refine ⟨by norm_num [sW7], by norm_num [sW7], hok, ?_⟩
  exact (asc_reset_at_refractory_end (fun x => x) pW7 Vw 1 3 [0] 0 sW7 (s7out, none)
      (by norm_num [sW7]) (by norm_num [sW7]) hok rfl rfl rfl).1
    (Or.inl rfl) 0 (by norm_num [sW7])

/-- Witness for C8: resetting to potential 0 with post-reset threshold -1 at
    the end of the refractory period aborts the step and the whole 3-step run
    with the fatal consistency error. -/
theorem bad_reset_is_fatal_witness :
    0 < sW8.t_ref_remaining ∧ sW8.t_ref_remaining - 1 ≤ 0 ∧
      resetThreshold pW 1 (spikeComponent (fun x => x) pW 1 1 sW8.last_spike)
        sW8.last_voltage sW8.threshold < resetU pW 1 sW8.U ∧
      updateStep (fun x => x) pW Vw 1 1 [0] 0 sW8 = .error .voltageResetAboveThreshold ∧
      runFrom (fun x => x) pW Vw 1 1 (fun _ => [0]) (fun _ => 0) 0 (2 + 1) sW8 =
        .error .voltageResetAboveThreshold := by
  have hbad : resetThreshold pW 1 (spikeComponent (fun x => x) pW 1 1 sW8.last_spike)
      sW8.last_voltage sW8.threshold < resetU pW 1 sW8.U := by
    norm_num [resetThreshold, resetU, spikeComponent, sW8, sW7, pW]
  refine ⟨by norm_num [sW8, sW7], by norm_num [sW8, sW7], hbad, ?_, ?_⟩
  · exact (bad_reset_is_fatal (fun x => x) pW Vw 1 1 (fun _ => [0]) (fun _ => 0)
      [0] 0 sW8 2 (by norm_num [sW8, sW7]) (by norm_num [sW8, sW7]) hbad).1
  · exact (bad_reset_is_fatal (fun x => x) pW Vw 1 1 (fun _ => [0]) (fun _ => 0)
      [0] 0 sW8 2 (by norm_num [sW8, sW7]) (by norm_num [sW8, sW7]) hbad).2

/-- Witness for C9: on pW (tau_syn = [2]) a unit spike delivered to receptor
    0 at step 1 gives, after 3 steps (m = 1 post-jump steps, exp = id),
    y1 = (1/2)*(-1/2) = -1/4 and y2 = 1*1*(1/2)*(-1/2) = -1/4, both nonzero. -/
theorem single_spike_alpha_kinetics_witness :
    0 < pW.tau_syn.length ∧
      s09.y1 = List.replicate pW.tau_syn.length 0 ∧
      s09.y2 = List.replicate pW.tau_syn.length 0 ∧
      runFrom (fun x => x) pW
          (calibrate (fun x => x) (fun _ _ _ _ => 0) (fun _ _ _ _ => 0) pW 1) 1 1
          (handleSpikeEvent (emptyBuffers pW.tau_syn.length) ⟨0 + 1, 1, 1, 1⟩)
          (fun _ => 0) 0 3 s09 = .ok s39 ∧
      s39.y1.getD 0 0 = -(1 / 4) ∧ s39.y2.getD 0 0 = -(1 / 4) ∧
      s39.y1.getD 0 0 ≠ 0 := by
  have hrun : runFrom (fun x => x) pW
      (calibrate (fun x => x) (fun _ _ _ _ => 0) (fun _ _ _ _ => 0) pW 1) 1 1
      (handleSpikeEvent (emptyBuffers pW.tau_syn.length) ⟨0 + 1, 1, 1, 1⟩)
      (fun _ => 0) 0 3 s09 = .ok s39 := by
    rw [show (3 : ℕ) = 0 + 1 + 1 + 1 from rfl]
    norm_num [runFrom, updateStep, coreStep, stepY1, stepY2, spikeComponent, resetU,
      resetThreshold, resetLastSpike, ascReset, voltageComponent, spike_offset,
      handleSpikeEvent, emptyBuffers, addValue, s09, s39, pW, calibrate]
  refine ⟨by norm_num [pW], by norm_num [s09, pW, List.replicate],
    by norm_num [s09, pW, List.replicate], hrun,
    by norm_num [s39], by norm_num [s39], ?_⟩
  have h := (single_spike_alpha_kinetics (fun x => x) (fun _ _ _ _ => 0) (fun _ _ _ _ => 0)
      pW 1 1 (fun _ => 0) 0 1 s09 (by norm_num [pW])
      (by norm_num [s09, pW, List.replicate])
      (by norm_num [s09, pW, List.replicate]) 3 s39 hrun).2.2 1 rfl
  exact h.2.2 (by norm_num [pW]) (by norm_num [pW])

end GlifPsc
